import Mathlib

/-!
Verification of the AI People Finder UI (`src/ui/src/app/page.jsx`) and of the
backend pipeline its data contract implies.  The frontend code is embedded
shallowly: React state updates become explicit state passing, `fetch` outcomes
become an inductive type, JavaScript dynamic values become the `JSVal` type
with JavaScript truthiness, and thrown exceptions become `Except`.
Backend components (ConfidenceScorer, CampaignManager) are absent from the
repository sources; they are modelled from the specification and marked as such.
-/

namespace AgentsDemo

/-- JavaScript dynamic value, restricted to the shapes the page manipulates:
strings, (integer) numbers, booleans and null/undefined (collapsed to `null`). -/
inductive JSVal where
  | str (s : String)
  | num (n : Int)
  | boolean (b : Bool)
  | null
deriving DecidableEq, Repr

/-- JavaScript truthiness of a `JSVal` (`""`, `0`, `false`, `null` are falsy). -/
def JSVal.truthy : JSVal → Bool
  | .str s => s != ""
  | .num n => n != 0
  | .boolean b => b
  | .null => false

/-- JavaScript `.toString()` on a `JSVal`. -/
def JSVal.jsToString : JSVal → String
  | .str s => s
  | .num n => toString n
  | .boolean b => if b then "true" else "false"
  | .null => "null"

/-- JavaScript `String.prototype.trim`, on the character list: leading and
trailing whitespace removed. -/
def jsTrim (s : String) : String :=
  String.mk
    ((s.toList.dropWhile Char.isWhitespace).reverse.dropWhile Char.isWhitespace).reverse

/-- JavaScript `String.prototype.toLowerCase`, on the character list. -/
def jsLower (s : String) : String :=
  String.mk (s.toList.map Char.toLower)

/-- JavaScript `.replace(/"/g, '""')`: every double quote doubled. -/
def escapeQuotes (s : String) : String :=
  String.mk (s.toList.foldr (fun c acc => if c = '"' then '"' :: '"' :: acc else c :: acc) [])

/-- One entry of `search_events` as rendered by the page: `message`, `type`
(severity kind) and `timestamp`. -/
structure SearchEvent where
  message : String
  type : String
  timestamp : String
deriving DecidableEq, Repr

/-- The `additional_data` object the page attaches to person-derived records
(page.jsx lines 112-118). -/
structure AdditionalData where
  person_name : String
  job_title : Option String
  company_name : Option String
  linkedin_url : String
  is_person : Bool
deriving DecidableEq, Repr

/-- A person item of the backend response (`people` array).  Fields the
backend may omit are `Option`; absent and `null` are both `none`. -/
structure Person where
  linkedin_url : String
  name : String
  title : Option String
  company : Option String
  experience_indicators : Option (List String)
  bio_snippet : Option String
  tools_mentioned : Option (List String)
  location : Option String
  founded : Option Int
  confidence_score : Int
  match_reasons : Option (List String)
  search_source : Option String
deriving DecidableEq, Repr

/-- A company-shaped record as displayed by the page: either a company item of
the backend response or the page's projection of a person item. -/
structure Company where
  id : Option String
  name : String
  industry : Option String
  company_type : Option String
  employee_count : Option Int
  employee_range : Option String
  website : Option String
  description : Option String
  tools_detected : List String
  location : Option String
  founded : Option Int
  confidence_score : Int
  match_reasons : List String
  search_source : Option String
  additional_data : Option AdditionalData
deriving DecidableEq, Repr

/-- `person.experience_indicators?.[0] || "Unknown"` (page.jsx line 103):
optional chaining yields `undefined` when the array is absent or empty, and
`||` replaces any falsy result (including the empty string) by `"Unknown"`. -/
def firstExperienceIndicator (xs : Option (List String)) : String :=
  match xs with
  | none => "Unknown"
  | some l =>
    match l.head? with
    | none => "Unknown"
    | some s => if s = "" then "Unknown" else s

/-- The page's conversion of one person item into a company-shaped record
(page.jsx lines 97-119). -/
def personToCompany (person : Person) : Company :=
  { id := some person.linkedin_url
    name := person.name
    industry := person.title
    company_type := person.company
    employee_count := none
    employee_range := some (firstExperienceIndicator person.experience_indicators)
    website := some person.linkedin_url
    description := person.bio_snippet
    tools_detected := person.tools_mentioned.getD []
    location := person.location
    founded := none
    confidence_score := person.confidence_score
    match_reasons := person.match_reasons.getD []
    search_source := person.search_source
    additional_data := some
      { person_name := person.name
        job_title := person.title
        company_name := person.company
        linkedin_url := person.linkedin_url
        is_person := true } }

/-- The `table_data` object of the response: column names and rows, each row a
JavaScript object (association list from column name to dynamic value). -/
structure TableData where
  columns : List String
  rows : List (List (String × JSVal))
deriving DecidableEq, Repr

/-- The `search_criteria` object of the response, read only for display. -/
structure SearchCriteriaUI where
  industry : Option String
  company_type : Option String
  employee_range_min : Option Int
  employee_range_max : Option Int
  required_tools : List String
  company_examples : List String
  strict_matching : Bool
deriving DecidableEq, Repr

/-- The parsed body of a `/search-companies` response, and equally the value
stored in the `searchResult` React state.  Fields the backend may omit are
`Option`. -/
structure SearchResult where
  companies : List Company
  people : Option (List Person)
  table_data : Option TableData
  search_summary : String
  search_events : List SearchEvent
  search_criteria : Option SearchCriteriaUI
  reasoning : Option String
  criteria_matched : Int
  total_found : Int
  execution_time : Int
  success : Bool
deriving DecidableEq, Repr

/-- The JSON body `JSON.stringify ... query ...` of the search request. -/
structure RequestBody where
  query : String
deriving DecidableEq, Repr

/-- An HTTP request as issued by `fetch` in `performIntelligentSearch`. -/
structure HttpRequest where
  url : String
  method : String
  contentType : String
  body : RequestBody
deriving DecidableEq, Repr

/-- The request `performIntelligentSearch` builds (page.jsx lines 78-84). -/
def buildSearchRequest (userQuery : String) : HttpRequest :=
  { url := "http://localhost:8000/search-companies"
    method := "POST"
    contentType := "application/json"
    body := { query := userQuery } }

/-- Outcome of the `fetch` call: a network fault (the promise rejects), a
non-OK HTTP response (with optional `detail` field of its JSON body), or an
OK response with a parsed body. -/
inductive FetchOutcome where
  | networkError (msg : String)
  | httpError (status : Nat) (detail : Option String)
  | ok (data : SearchResult)
deriving DecidableEq, Repr

/-- True on the outcomes that make `performIntelligentSearch` take its catch
branch. -/
def FetchOutcome.isFailure : FetchOutcome → Bool
  | .networkError _ => true
  | .httpError _ _ => true
  | .ok _ => false

/-- The `Error` message thrown on a non-OK response (page.jsx line 88):
`errorData.detail` when truthy, else the template string with the status. -/
def httpErrorMessage (status : Nat) (detail : Option String) : String :=
  match detail with
  | some d => if d = "" then "HTTP error! status: " ++ toString status else d
  | none => "HTTP error! status: " ++ toString status

/-- The projection applied to an OK response (page.jsx lines 95-120): when the
`people` field is present (any array, even empty, is truthy) the `companies`
field is replaced by the people mapped through `personToCompany`; every other
field is left as parsed. -/
def applyPeopleProjection (data : SearchResult) : SearchResult :=
  match data.people with
  | none => data
  | some people => { data with companies := people.map personToCompany }

/-- The result object built in the catch branch (page.jsx lines 131-146);
`ts` is `new Date().toLocaleTimeString()`. -/
def errorSearchResult (msg : String) (ts : String) : SearchResult :=
  { companies := []
    people := some []
    table_data := none
    search_summary := "Search failed: " ++ msg
    search_events := [{ message := "❌ Error: " ++ msg, type := "error", timestamp := ts }]
    search_criteria := none
    reasoning := none
    criteria_matched := 0
    total_found := 0
    execution_time := 0
    success := false }

/-- The slice of React state `performIntelligentSearch` writes. -/
structure SearchState where
  isSearching : Bool
  searchProgress : Int
  searchResult : Option SearchResult
deriving DecidableEq, Repr

/-- `performIntelligentSearch` (page.jsx lines 69-150) as a function of the
query, the clock reading and the fetch outcome: it returns the list of HTTP
requests issued and the final React state.  The `finally` block always clears
`isSearching`. -/
def performIntelligentSearch (userQuery : String) (ts : String)
    (outcome : FetchOutcome) : List HttpRequest × SearchState :=
  ([buildSearchRequest userQuery],
    match outcome with
    | .ok data =>
      { isSearching := false
        searchProgress := 100
        searchResult := some (applyPeopleProjection data) }
    | .networkError msg =>
      { isSearching := false
        searchProgress := 0
        searchResult := some (errorSearchResult msg ts) }
    | .httpError status detail =>
      { isSearching := false
        searchProgress := 0
        searchResult := some (errorSearchResult (httpErrorMessage status detail) ts) })

/-- The full UI state `handleSearch` can read or write. -/
structure UIState where
  query : String
  isSearching : Bool
  searchProgress : Int
  searchResult : Option SearchResult
deriving DecidableEq, Repr

/-- `handleSearch` (page.jsx lines 152-155): a blank query (empty after
`trim()`) returns immediately; otherwise the search runs on the current
query. -/
def handleSearch (st : UIState) (ts : String) (outcome : FetchOutcome) :
    List HttpRequest × UIState :=
  if jsTrim st.query = "" then ([], st)
  else
    let (reqs, s) := performIntelligentSearch st.query ts outcome
    (reqs,
      { query := st.query
        isSearching := s.isSearching
        searchProgress := s.searchProgress
        searchResult := s.searchResult })

/-- The `selectedFilters` React state. -/
structure Filters where
  minConfidence : Int
  industry : String
  employeeRange : String
deriving DecidableEq, Repr

/-- The initial filter settings (page.jsx lines 41-45). -/
def defaultFilters : Filters :=
  { minConfidence := 0, industry := "", employeeRange := "" }

/-- True when `needle` occurs as a contiguous subsequence of the second list. -/
def containsSeq (needle : List Char) : List Char → Bool
  | [] => needle.isEmpty
  | c :: rest => needle.isPrefixOf (c :: rest) || containsSeq needle rest

/-- JavaScript `haystack.includes(needle)` on strings. -/
def jsIncludes (haystack needle : String) : Bool :=
  containsSeq needle.toList haystack.toList

/-- The employee-range clause of the filter callback (page.jsx lines 180-188).
It excludes a company only when `employee_count` is truthy (so a missing or
zero count never excludes) and falls outside the selected range. -/
def employeeRangeExcludes (f : Filters) (c : Company) : Bool :=
  if f.employeeRange = "" then false
  else
    match c.employee_count with
    | none => false
    | some n =>
      if n = 0 then false
      else if f.employeeRange = "100-500" then decide (n < 100) || decide (n > 500)
      else if f.employeeRange = "1000+" then decide (n < 1000)
      else false

/-- The filter callback of `getFilteredCompanies` (page.jsx lines 168-191).
When the industry filter is a non-empty string, `company.industry.toLowerCase()`
is evaluated unguarded: a `null`/`undefined` industry throws a `TypeError`,
modelled as `Except.error`. -/
def companyPassesFilter (f : Filters) (c : Company) : Except String Bool :=
  if f.minConfidence > 0 && decide (c.confidence_score < f.minConfidence) then
    .ok false
  else if f.industry != "" then
    match c.industry with
    | none => .error "TypeError: cannot read toLowerCase of null"
    | some ind =>
      if !jsIncludes (jsLower ind) (jsLower f.industry) then .ok false
      else .ok (!employeeRangeExcludes f c)
  else .ok (!employeeRangeExcludes f c)

/-- JavaScript `Array.prototype.filter` with a callback that can throw:
elements are visited left to right and the first exception propagates. -/
def filterExcept (p : Company → Except String Bool) :
    List Company → Except String (List Company)
  | [] => .ok []
  | c :: cs => do
    let keep ← p c
    let rest ← filterExcept p cs
    pure (if keep then c :: rest else rest)

/-- `getFilteredCompanies` (page.jsx lines 165-192) on a companies array. -/
def getFilteredCompanies (f : Filters) (companies : List Company) :
    Except String (List Company) :=
  filterExcept (companyPassesFilter f) companies

/-- `getFilteredCompanies` including its guard on the React state
(page.jsx line 166): a missing result or missing companies field yields `[]`. -/
def getFilteredCompaniesOfState (f : Filters) (res : Option SearchResult) :
    Except String (List Company) :=
  match res with
  | none => .ok []
  | some r => getFilteredCompanies f r.companies

/-- One CSV cell of `exportTableData` (page.jsx line 213):
`"${(row[col] || '').toString().replace(/"/g, '""')}"`.  A missing property
reads as `undefined` (here `JSVal.null`); `||` replaces any falsy value by the
empty string. -/
def csvCell (row : List (String × JSVal)) (col : String) : String :=
  let v := (row.lookup col).getD .null
  let s := if v.truthy then v.jsToString else ""
  "\"" ++ escapeQuotes s ++ "\""

/-- `exportTableData`'s CSV accumulation (page.jsx lines 209-215): the header
line, then `csvContent += row + newline` for each row in order. -/
def exportTableData (td : TableData) : String :=
  td.rows.foldl
    (fun csvContent row =>
      csvContent ++ String.intercalate "," (td.columns.map (csvCell row)) ++ "\n")
    (String.intercalate "," td.columns ++ "\n")

/-- The cell rule exactly as claim C10 words it: the cell is the row's value
for that column, the empty string only when that value is null or undefined,
wrapped in quotes with embedded quotes doubled. -/
def claimCsvCell (row : List (String × JSVal)) (col : String) : String :=
  let s := match (row.lookup col).getD .null with
    | .null => ""
    | v => v.jsToString
  "\"" ++ escapeQuotes s ++ "\""

/-- The CSV exactly as claim C10 words it: column names joined by commas, then
one line per row built from `claimCsvCell`. -/
def claimExportTableData (td : TableData) : String :=
  String.intercalate "," td.columns ++ "\n" ++
    String.join (td.rows.map (fun row =>
      String.intercalate "," (td.columns.map (claimCsvCell row)) ++ "\n"))

/-- Modelled from the spec: the backend `SearchCriteria` record (§3 of the
specification); the backend source is not in the repository. -/
structure SearchCriteria where
  required_tools : List String
  job_titles : List String
  industry : Option String
  company_type : Option String
  employee_range_min : Option Int
  employee_range_max : Option Int
  company_examples : List String
  strict_matching : Bool
deriving DecidableEq, Repr

/-- Modelled from the spec: the criteria invariant, at least one of
required_tools, job_titles, industry non-empty. -/
def SearchCriteria.valid (c : SearchCriteria) : Bool :=
  !c.required_tools.isEmpty || !c.job_titles.isEmpty || c.industry.isSome

/-- Modelled from the spec: one `ToolMention` evidence item (§3). -/
structure ToolMention where
  tool : String
  surface : String
  snippet : String
deriving DecidableEq, Repr

/-- Modelled from the spec: a raw `CandidateRecord` (§3), pre-scoring. -/
structure CandidateRecord where
  isPerson : Bool
  name : String
  location : Option String
  search_source : String
  rawText : String
  url : String
  employeeCount : Option Int
deriving DecidableEq, Repr

/-- Modelled from the spec: a `ScoredCandidate` (§3). -/
structure ScoredCandidate where
  record : CandidateRecord
  score : ℤ
  reasons : List String
  mentions : List ToolMention
deriving DecidableEq, Repr

/-- Modelled from the spec: default size of the tool band (§4.4, 50% of total). -/
def toolBandWeight : ℚ := 50

/-- Modelled from the spec: default size of the role band (§4.4, 25%). -/
def roleBandWeight : ℚ := 25

/-- Modelled from the spec: default size of the context band (§4.4, 25%). -/
def contextBandWeight : ℚ := 25

/-- Modelled from the spec: the required tools matched by some `ToolMention`. -/
def matchedTools (criteria : SearchCriteria) (mentions : List ToolMention) :
    List String :=
  criteria.required_tools.filter (fun t => mentions.any (fun m => m.tool == t))

/-- Modelled from the spec: each matched required tool contributes a
`1/len(required_tools)` share of the tool band (§4.4). -/
def toolBand (criteria : SearchCriteria) (mentions : List ToolMention) : ℚ :=
  if criteria.required_tools.isEmpty then 0
  else ((matchedTools criteria mentions).length : ℚ)
    / (criteria.required_tools.length : ℚ) * toolBandWeight

/-- Modelled from the spec: the job titles whose keywords appear in the
candidate's raw text. -/
def matchedTitles (criteria : SearchCriteria) (cand : CandidateRecord) :
    List String :=
  criteria.job_titles.filter (fun jt => jsIncludes (jsLower cand.rawText) (jsLower jt))

/-- Modelled from the spec: job-title keyword overlap fills the role band
proportionally (§4.4). -/
def roleBand (criteria : SearchCriteria) (cand : CandidateRecord) : ℚ :=
  if criteria.job_titles.isEmpty then 0
  else ((matchedTitles criteria cand).length : ℚ)
    / (criteria.job_titles.length : ℚ) * roleBandWeight

/-- Modelled from the spec: industry similarity signal of the context band. -/
def industrySimilar (criteria : SearchCriteria) (cand : CandidateRecord) : Bool :=
  match criteria.industry with
  | none => false
  | some i => jsIncludes (jsLower cand.rawText) (jsLower i)

/-- Modelled from the spec: company-size similarity signal of the context band. -/
def sizeSimilar (criteria : SearchCriteria) (cand : CandidateRecord) : Bool :=
  match cand.employeeCount, criteria.employee_range_min, criteria.employee_range_max with
  | some n, some lo, some hi => decide (lo ≤ n) && decide (n ≤ hi)
  | some n, some lo, none => decide (lo ≤ n)
  | some n, none, some hi => decide (n ≤ hi)
  | _, _, _ => false

/-- Modelled from the spec: company-examples similarity signal of the context
band. -/
def examplesSimilar (criteria : SearchCriteria) (cand : CandidateRecord) : Bool :=
  criteria.company_examples.any (fun e => jsIncludes (jsLower cand.rawText) (jsLower e))

/-- Modelled from the spec: the three context signals, in evaluation order. -/
def contextSignals (criteria : SearchCriteria) (cand : CandidateRecord) :
    List Bool :=
  [industrySimilar criteria cand, sizeSimilar criteria cand,
    examplesSimilar criteria cand]

/-- Modelled from the spec: industry, size and company-examples similarity
share the context band (§4.4). -/
def contextBand (criteria : SearchCriteria) (cand : CandidateRecord) : ℚ :=
  (((contextSignals criteria cand).countP id : ℚ) / 3) * contextBandWeight

/-- Clamp a rational to the interval from 0 to 100. -/
def clampScore (x : ℚ) : ℚ := max 0 (min 100 x)

/-- Modelled from the spec: `ConfidenceScorer.score` — the sum of the band
contributions, clamped to the 0..100 interval and rounded to the nearest
integer (§4.4). -/
def confidenceScore (criteria : SearchCriteria) (cand : CandidateRecord)
    (mentions : List ToolMention) : ℤ :=
  round (clampScore
    (toolBand criteria mentions + roleBand criteria cand + contextBand criteria cand))

/-- Modelled from the spec: match reasons appended in evaluation order —
tools, then roles, then context (§4.4). -/
def matchReasonsOf (criteria : SearchCriteria) (cand : CandidateRecord)
    (mentions : List ToolMention) : List String :=
  (matchedTools criteria mentions).map (fun t => "Uses required tool: " ++ t)
    ++ (matchedTitles criteria cand).map (fun jt => "Role matches: " ++ jt)
    ++ ((contextSignals criteria cand).countP id |> fun k =>
        if k = 0 then [] else ["Context similarity signals: " ++ toString k])

/-- Modelled from the spec: a candidate misses a required tool when no
`ToolMention` matches it. -/
def missingAnyRequiredTool (criteria : SearchCriteria)
    (mentions : List ToolMention) : Bool :=
  criteria.required_tools.any (fun t => !(mentions.any (fun m => m.tool == t)))

/-- Modelled from the spec: in strict mode a candidate missing ANY required
tool is excluded before scoring (§4.4); flexible mode keeps every candidate. -/
def strictFilter (criteria : SearchCriteria)
    (cands : List (CandidateRecord × List ToolMention)) :
    List (CandidateRecord × List ToolMention) :=
  if criteria.strict_matching then
    cands.filter (fun cm => !missingAnyRequiredTool criteria cm.2)
  else cands

/-- Modelled from the spec: the scoring stage — strict-mode exclusion first,
then one `ScoredCandidate` per surviving candidate. -/
def scoreCandidates (criteria : SearchCriteria)
    (cands : List (CandidateRecord × List ToolMention)) : List ScoredCandidate :=
  (strictFilter criteria cands).map (fun cm =>
    { record := cm.1
      score := confidenceScore criteria cm.1 cm.2
      reasons := matchReasonsOf criteria cm.1 cm.2
      mentions := cm.2 })

/-- Modelled from the spec: the campaign lifecycle states (§4.7). -/
inductive CampaignStatus where
  | draft
  | running
  | paused
  | completed
  | failed
deriving DecidableEq, Repr

/-- Modelled from the spec: the campaign error taxonomy relevant to the
lifecycle (§7). -/
inductive CampaignError where
  | notFound
  | invalidState
  | validationFailure
deriving DecidableEq, Repr

/-- Modelled from the spec: a campaign creation request (§6). -/
structure CampaignRequest where
  company_name : String
  job_titles : List String
  target_tools : List String
  department : Option String
deriving DecidableEq, Repr

/-- Modelled from the spec: `create(request)` validates the request and
produces a `draft` campaign (§4.7). -/
def createCampaign (r : CampaignRequest) : Except CampaignError CampaignStatus :=
  if r.company_name != "" && !r.job_titles.isEmpty && !r.target_tools.isEmpty then
    .ok .draft
  else .error .validationFailure

/-- Modelled from the spec: `start(id)` moves draft or paused to running and
is an `InvalidStateError` elsewhere (§4.7). -/
def startTransition : CampaignStatus → Except CampaignError CampaignStatus
  | .draft => .ok .running
  | .paused => .ok .running
  | _ => .error .invalidState

/-- Modelled from the spec: `pause(id)` moves running to paused and is an
`InvalidStateError` elsewhere (§4.7). -/
def pauseTransition : CampaignStatus → Except CampaignError CampaignStatus
  | .running => .ok .paused
  | _ => .error .invalidState

/-- Modelled from the spec: a pipeline finishing without fatal error completes
a running campaign (§4.7). -/
def completeTransition : CampaignStatus → Except CampaignError CampaignStatus
  | .running => .ok .completed
  | _ => .error .invalidState

/-- Modelled from the spec: a fatal pipeline error fails a running campaign
(§4.7). -/
def failTransition : CampaignStatus → Except CampaignError CampaignStatus
  | .running => .ok .failed
  | _ => .error .invalidState

/-- The transition edges the specification draws for the campaign machine. -/
def allowedTransition (s s2 : CampaignStatus) : Bool :=
  (s == .draft && s2 == .running) || (s == .running && s2 == .paused)
    || (s == .paused && s2 == .running) || (s == .running && s2 == .completed)
    || (s == .running && s2 == .failed)

/-- Run one lifecycle operation, keeping the previous state when the
operation fails. -/
def applyTransition
    (f : CampaignStatus → Except CampaignError CampaignStatus)
    (s : CampaignStatus) : CampaignStatus × Option CampaignError :=
  match f s with
  | .ok s2 => (s2, none)
  | .error e => (s, some e)

/-- The cell string rule that actually matches the code: the value's string
form, except that every falsy value — null, undefined, the empty string, the
number 0 and false — becomes the empty string. -/
def amendedCellString : JSVal → String
  | .null => ""
  | .str s => s
  | .num n => if n = 0 then "" else toString n
  | .boolean b => if b then "true" else ""

/-- The CSV as the amended claim C10 words it: column names joined by commas,
then one line per row in order, each cell the `amendedCellString` of the row's
value, quoted with embedded quotes doubled. -/
def amendedExportTableData (td : TableData) : String :=
  String.intercalate "," td.columns ++ "\n" ++
    String.join (td.rows.map (fun row =>
      String.intercalate "," (td.columns.map (fun col =>
        "\"" ++ escapeQuotes (amendedCellString ((row.lookup col).getD .null)) ++ "\""))
        ++ "\n"))

/-- A one-column table whose single cell holds the number 0. -/
def csvTable0 : TableData :=
  { columns := ["Employees"], rows := [[("Employees", .num 0)]] }

/-- A person item with no job title, as the backend may return for a profile
without one; its projection has a null `industry`. -/
def person0 : Person :=
  { linkedin_url := "https://linkedin.com/in/pat", name := "Pat"
    title := none, company := none, experience_indicators := none
    bio_snippet := none, tools_mentioned := none, location := none
    founded := none, confidence_score := 80, match_reasons := none
    search_source := none }

/-- Filter settings with the SaaS industry quick filter applied. -/
def saasFilters : Filters :=
  { minConfidence := 0, industry := "saas", employeeRange := "" }

/-- A complete person item, for concrete runs of the projection. -/
def person1 : Person :=
  { linkedin_url := "https://linkedin.com/in/kim", name := "Kim"
    title := some "Customer Success Lead", company := some "Acme"
    experience_indicators := some ["5+ years"]
    bio_snippet := some "Uses Intercom and Klaus daily"
    tools_mentioned := some ["Intercom", "Klaus"]
    location := some "Berlin", founded := none, confidence_score := 92
    match_reasons := some ["Mentions Intercom", "Mentions Klaus"]
    search_source := some "linkedin_search" }

/-- A backend response carrying one person, for concrete runs of the search. -/
def sampleResponse : SearchResult :=
  { companies := []
    people := some [person1]
    table_data := none
    search_summary := "Found 1 person"
    search_events := [{ message := "Done", type := "success", timestamp := "10:00:00" }]
    search_criteria := none
    reasoning := some "matched both tools"
    criteria_matched := 2
    total_found := 1
    execution_time := 3
    success := true }

/-- UI state holding a non-blank query. -/
def queryState : UIState :=
  { query := "find people who use Intercom and Klaus"
    isSearching := false, searchProgress := 0, searchResult := none }

/-- UI state holding a whitespace-only query, with some prior result. -/
def blankState : UIState :=
  { query := "   "
    isSearching := false, searchProgress := 42
    searchResult := some sampleResponse }

/-- A valid strict-matching criteria set, for concrete scorer runs. -/
def criteria0 : SearchCriteria :=
  { required_tools := ["Intercom", "Klaus"]
    job_titles := ["customer success"]
    industry := some "saas", company_type := none
    employee_range_min := none, employee_range_max := none
    company_examples := [], strict_matching := true }

/-- A concrete raw candidate, for concrete scorer runs. -/
def cand0 : CandidateRecord :=
  { isPerson := true, name := "Kim", location := some "Berlin"
    search_source := "linkedin_search"
    rawText := "Customer Success Lead using Intercom daily"
    url := "https://linkedin.com/in/kim", employeeCount := none }

/-- Tool mentions covering only one of the two required tools. -/
def mentions0 : List ToolMention :=
  [{ tool := "Intercom", surface := "Intercom", snippet := "using Intercom daily" }]

/-- Tool mentions covering both required tools. -/
def mentions1 : List ToolMention :=
  [{ tool := "Intercom", surface := "Intercom", snippet := "using Intercom" },
    { tool := "Klaus", surface := "Klaus", snippet := "and Klaus" }]

/-- A valid campaign creation request. -/
def request0 : CampaignRequest :=
  { company_name := "Acme", job_titles := ["Customer Success Manager"]
    target_tools := ["Intercom"], department := some "Support" }

/-! Helper lemmas. -/

theorem round_clampScore_nonneg (x : ℚ) : 0 ≤ round (clampScore x) := by
  rw [round_eq]
  have h0 : (0 : ℚ) ≤ clampScore x := le_max_left 0 _
  exact Int.le_floor.mpr (by push_cast; linarith)

theorem round_clampScore_le (x : ℚ) : round (clampScore x) ≤ 100 := by
  rw [round_eq]
  have h1 : clampScore x ≤ 100 := max_le (by norm_num) (min_le_left _ _)
  have h2 : ⌊clampScore x + 1 / 2⌋ < 101 := Int.floor_lt.mpr (by push_cast; linarith)
  omega

theorem companyPassesFilter_default (c : Company) :
    companyPassesFilter defaultFilters c = .ok true := rfl

theorem filterExcept_all_true (p : Company → Except String Bool)
    (cs : List Company) (h : ∀ c ∈ cs, p c = .ok true) :
    filterExcept p cs = .ok cs := by
  induction cs with
  | nil => rfl
  | cons c cs ih =>
    have hc := h c (List.mem_cons_self c cs)
    have ih2 := ih (fun x hx => h x (List.mem_cons_of_mem c hx))
    simp only [filterExcept]
    rw [hc, ih2]
    rfl

theorem companyPassesFilter_ok (f : Filters) (c : Company)
    (h : f.industry = "" ∨ c.industry.isSome = true) :
    ∃ b, companyPassesFilter f c = .ok b := by
  unfold companyPassesFilter
  split
  · exact ⟨false, rfl⟩
  · split
    · rename_i hne
      split
      · rename_i heq
        rcases h with h | h
        · rw [h] at hne
          simp at hne
        · rw [heq] at h
          simp at h
      · split
        · exact ⟨false, rfl⟩
        · exact ⟨_, rfl⟩
    · exact ⟨_, rfl⟩

theorem filterExcept_total (p : Company → Except String Bool)
    (cs : List Company) (h : ∀ c ∈ cs, ∃ b, p c = .ok b) :
    ∃ out, filterExcept p cs = .ok out := by
  induction cs with
  | nil => exact ⟨[], rfl⟩
  | cons c cs ih =>
    obtain ⟨b, hb⟩ := h c (List.mem_cons_self c cs)
    obtain ⟨out, hout⟩ := ih (fun x hx => h x (List.mem_cons_of_mem c hx))
    refine ⟨if b then c :: out else out, ?_⟩
    simp only [filterExcept]
    rw [hb, hout]
    rfl

/-! Claim theorems. -/

/-- C1: every failure of the search request — a network fault or a non-OK
HTTP response — still produces a stored result object: `success` is false,
the companies and people arrays are empty, `criteria_matched`, `total_found`
and `execution_time` are 0, and `search_events` is a single event of kind
`error`. -/
theorem performIntelligentSearch_failure_result (userQuery ts : String)
    (outcome : FetchOutcome) (h : outcome.isFailure = true) :
    ∃ r, (performIntelligentSearch userQuery ts outcome).2.searchResult = some r ∧
      r.success = false ∧ r.companies = [] ∧ r.people = some [] ∧
      r.criteria_matched = 0 ∧ r.total_found = 0 ∧ r.execution_time = 0 ∧
      ∃ e, r.search_events = [e] ∧ e.type = "error" := by
  cases outcome with
  | networkError msg =>
    exact ⟨errorSearchResult msg ts, rfl, rfl, rfl, rfl, rfl, rfl, rfl, _, rfl, rfl⟩
  | httpError status detail =>
    exact ⟨errorSearchResult (httpErrorMessage status detail) ts,
      rfl, rfl, rfl, rfl, rfl, rfl, rfl, _, rfl, rfl⟩
  | ok data => simp [FetchOutcome.isFailure] at h

/-- Witness for C1 at a concrete network failure. -/
theorem performIntelligentSearch_failure_result_witness :
    (FetchOutcome.networkError "Failed to fetch").isFailure = true ∧
    ∃ r, (performIntelligentSearch "find people" "10:00:00"
        (.networkError "Failed to fetch")).2.searchResult = some r ∧
      r.success = false ∧ r.companies = [] ∧ r.people = some [] ∧
      r.criteria_matched = 0 ∧ r.total_found = 0 ∧ r.execution_time = 0 ∧
      ∃ e, r.search_events = [e] ∧ e.type = "error" :=
  ⟨rfl, performIntelligentSearch_failure_result "find people" "10:00:00"
    (.networkError "Failed to fetch") rfl⟩

/-- C6: every person record converts to a company-shaped record with
`additional_data.is_person` true, preserving name, confidence score, match
reasons, location and search source, mapping `tools_mentioned` to
`tools_detected` (empty when absent), and using the LinkedIn URL as both the
id and the website. -/
theorem personToCompany_preserves_fields (p : Person) :
    (personToCompany p).name = p.name ∧
    (personToCompany p).confidence_score = p.confidence_score ∧
    (personToCompany p).match_reasons = p.match_reasons.getD [] ∧
    (personToCompany p).location = p.location ∧
    (personToCompany p).search_source = p.search_source ∧
    (personToCompany p).tools_detected = p.tools_mentioned.getD [] ∧
    (personToCompany p).id = some p.linkedin_url ∧
    (personToCompany p).website = some p.linkedin_url ∧
    ∃ ad, (personToCompany p).additional_data = some ad ∧ ad.is_person = true :=
  ⟨rfl, rfl, rfl, rfl, rfl, rfl, rfl, rfl, _, rfl, rfl⟩

/-- C5: for a non-blank query, exactly one POST request goes to the
`/search-companies` endpoint with JSON body holding the query, and on an OK
response the parsed body is stored as the displayed result unmodified except
that, when a `people` array is present, `companies` is replaced by its
projection through `personToCompany`. -/
theorem searchRequest_and_result_storage (st : UIState) (ts : String)
    (data : SearchResult) (h : jsTrim st.query ≠ "") :
    (handleSearch st ts (.ok data)).1 = [buildSearchRequest st.query] ∧
    buildSearchRequest st.query =
      { url := "http://localhost:8000/search-companies", method := "POST"
        contentType := "application/json", body := { query := st.query } } ∧
    (handleSearch st ts (.ok data)).2.searchResult =
      some { data with companies :=
        match data.people with
        | none => data.companies
        | some ps => ps.map personToCompany } := by
  refine ⟨?_, rfl, ?_⟩
  · simp [handleSearch, h, performIntelligentSearch]
  · rcases hp : data.people with _ | ps
    · simp [handleSearch, h, performIntelligentSearch, applyPeopleProjection, hp]
      rw [← hp]
    · simp [handleSearch, h, performIntelligentSearch, applyPeopleProjection, hp]

/-- Witness for C5 at a concrete query and response. -/
theorem searchRequest_and_result_storage_witness :
    jsTrim queryState.query ≠ "" ∧
    ((handleSearch queryState "10:00:05" (.ok sampleResponse)).1
        = [buildSearchRequest queryState.query] ∧
      buildSearchRequest queryState.query =
        { url := "http://localhost:8000/search-companies", method := "POST"
          contentType := "application/json", body := { query := queryState.query } } ∧
      (handleSearch queryState "10:00:05" (.ok sampleResponse)).2.searchResult =
        some { sampleResponse with companies :=
          match sampleResponse.people with
          | none => sampleResponse.companies
          | some ps => ps.map personToCompany }) :=
  ⟨by decide, searchRequest_and_result_storage queryState "10:00:05" sampleResponse
    (by decide)⟩

/-- C7: with the default filter settings, `getFilteredCompanies` returns every
company unchanged and in order — no filtering happens at this layer. -/
theorem getFilteredCompanies_default_identity (cs : List Company) :
    getFilteredCompanies defaultFilters cs = .ok cs :=
  filterExcept_all_true _ cs (fun c _ => companyPassesFilter_default c)

/-- C8: `getFilteredCompanies` is total when every company has a non-null
industry or the industry filter is empty, and on a person-derived record
without a job title it throws (`Except.error`) instead of filtering the
record out. -/
theorem getFilteredCompanies_null_industry :
    (∀ f cs, (f.industry = "" ∨ ∀ c ∈ cs, (Company.industry c).isSome = true) →
      ∃ out, getFilteredCompanies f cs = .ok out) ∧
    (personToCompany person0).industry = none ∧
    getFilteredCompanies saasFilters [personToCompany person0]
      = .error "TypeError: cannot read toLowerCase of null" := by
  refine ⟨?_, rfl, rfl⟩
  intro f cs h
  apply filterExcept_total
  intro c hc
  apply companyPassesFilter_ok
  rcases h with h | h
  · exact Or.inl h
  · exact Or.inr (h c hc)

/-- Witness for C8's totality part at a concrete filter and company list. -/
theorem getFilteredCompanies_null_industry_witness :
    (saasFilters.industry = "" ∨
      ∀ c ∈ [personToCompany person1], (Company.industry c).isSome = true) ∧
    ∃ out, getFilteredCompanies saasFilters [personToCompany person1] = .ok out :=
  ⟨Or.inr (by decide),
    getFilteredCompanies_null_industry.1 saasFilters [personToCompany person1]
      (Or.inr (by decide))⟩

/-- C9: a query that is empty or whitespace-only performs no backend request
and leaves the whole UI state unchanged. -/
theorem handleSearch_blank_noop (st : UIState) (ts : String)
    (outcome : FetchOutcome) (h : jsTrim st.query = "") :
    handleSearch st ts outcome = ([], st) := by
  simp [handleSearch, h]

/-- Witness for C9 at a whitespace-only query. -/
theorem handleSearch_blank_noop_witness :
    jsTrim blankState.query = "" ∧
    handleSearch blankState "10:00:00" (.networkError "down") = ([], blankState) :=
  ⟨by decide,
    handleSearch_blank_noop blankState "10:00:00" (.networkError "down") (by decide)⟩

theorem string_join_cons (a : String) (l : List String) :
    String.join (a :: l) = a ++ String.join l := by
  have h1 : (String.join (a :: l)).data = (a ++ String.join l).data := by
    simp [String.data_join]
  cases hj : String.join (a :: l)
  cases hc : a ++ String.join l
  simp_all

theorem foldl_append_join (g : List (String × JSVal) → String)
    (rows : List (List (String × JSVal))) (init : String) :
    rows.foldl (fun acc row => acc ++ g row) init = init ++ String.join (rows.map g) := by
  induction rows generalizing init with
  | nil => simp [String.join, String.append_empty]
  | cons r rs ih =>
    rw [List.foldl_cons, ih (init ++ g r), List.map_cons, string_join_cons,
      String.append_assoc]

theorem truthyString_eq_amended (v : JSVal) :
    (if v.truthy then v.jsToString else "") = amendedCellString v := by
  cases v with
  | null => rfl
  | str s =>
    by_cases hs : s = ""
    · subst hs
      rfl
    · simp [JSVal.truthy, JSVal.jsToString, amendedCellString, hs]
  | num n =>
    by_cases hn : n = 0
    · subst hn
      rfl
    · simp [JSVal.truthy, JSVal.jsToString, amendedCellString, hn]
  | boolean b => cases b <;> rfl

theorem csvCell_eq_amended (row : List (String × JSVal)) (col : String) :
    csvCell row col =
      "\"" ++ escapeQuotes (amendedCellString ((row.lookup col).getD .null)) ++ "\"" := by
  simp only [csvCell]
  rw [truthyString_eq_amended]

/-- C10 counterexample: on a table whose single cell holds the number 0, the
code writes an empty quoted cell, while the claim's cell rule — value string,
empty only for null/undefined — writes a quoted 0; the claim as stated is
false on this input. -/
theorem exportTableData_zero_cell_counterexample :
    exportTableData csvTable0 = "Employees\n\"\"\n" ∧
    claimExportTableData csvTable0 = "Employees\n\"0\"\n" ∧
    exportTableData csvTable0 ≠ claimExportTableData csvTable0 :=
  ⟨by decide, by decide, by decide⟩

/-- C10 amended: the CSV is the column names joined by commas, then one line
per row in order, where each cell is the row's value as a string — the empty
string for every falsy value (null, undefined, the empty string, 0 and
false), not only for null/undefined — wrapped in double quotes with embedded
double quotes doubled. -/
theorem exportTableData_amended_form (td : TableData) :
    exportTableData td = amendedExportTableData td := by
  have hrow : (fun row => String.intercalate "," (td.columns.map (csvCell row)) ++ "\n")
      = (fun row : List (String × JSVal) => String.intercalate ","
          (td.columns.map (fun col =>
            "\"" ++ escapeQuotes (amendedCellString ((row.lookup col).getD .null)) ++ "\""))
          ++ "\n") := by
    funext row
    congr 1
    congr 1
    congr 1
    funext col
    exact csvCell_eq_amended row col
  unfold exportTableData amendedExportTableData
  simp only [String.append_assoc]
  rw [foldl_append_join, hrow]
  simp only [String.append_assoc]

/-- C2: for every valid criteria set the confidence score is the sum of the
band contributions clamped to the 0..100 interval and rounded to the nearest
integer, and so always lies between 0 and 100. -/
theorem confidenceScore_in_range (criteria : SearchCriteria)
    (cand : CandidateRecord) (mentions : List ToolMention)
    (h : criteria.valid = true) :
    confidenceScore criteria cand mentions =
      round (clampScore (toolBand criteria mentions + roleBand criteria cand
        + contextBand criteria cand)) ∧
    0 ≤ confidenceScore criteria cand mentions ∧
    confidenceScore criteria cand mentions ≤ 100 :=
  ⟨rfl, round_clampScore_nonneg _, round_clampScore_le _⟩

/-- Witness for C2 at a concrete valid criteria set and candidate. -/
theorem confidenceScore_in_range_witness :
    criteria0.valid = true ∧
    (confidenceScore criteria0 cand0 mentions0 =
        round (clampScore (toolBand criteria0 mentions0 + roleBand criteria0 cand0
          + contextBand criteria0 cand0)) ∧
      0 ≤ confidenceScore criteria0 cand0 mentions0 ∧
      confidenceScore criteria0 cand0 mentions0 ≤ 100) :=
  ⟨by decide, confidenceScore_in_range criteria0 cand0 mentions0 (by decide)⟩

/-- C3: under strict matching, every scored candidate in the pipeline's
output carries a mention of every required tool — candidates missing any
required tool are dropped by `strictFilter` before `confidenceScore` is ever
applied. -/
theorem strict_matching_no_missing_tools (criteria : SearchCriteria)
    (cands : List (CandidateRecord × List ToolMention))
    (h : criteria.strict_matching = true) :
    ∀ sc ∈ scoreCandidates criteria cands, ∀ t ∈ criteria.required_tools,
      sc.mentions.any (fun m => m.tool == t) = true := by
  intro sc hsc t ht
  simp only [scoreCandidates, strictFilter, h, if_true, List.mem_map,
    List.mem_filter] at hsc
  obtain ⟨cm, ⟨_, hkeep⟩, rfl⟩ := hsc
  simp only [missingAnyRequiredTool, Bool.not_eq_true', List.any_eq_false,
    Bool.not_eq_false] at hkeep
  have hk := hkeep t ht
  push_neg at hk
  show (cm.2.any fun m => m.tool == t) = true
  simp only [List.any_eq_true]
  exact hk

/-- Witness for C3 at a concrete strict criteria set with one candidate that
has both tools and one missing a tool. -/
theorem strict_matching_no_missing_tools_witness :
    criteria0.strict_matching = true ∧
    ∀ sc ∈ scoreCandidates criteria0 [(cand0, mentions1), (cand0, mentions0)],
      ∀ t ∈ criteria0.required_tools,
        sc.mentions.any (fun m => m.tool == t) = true :=
  ⟨rfl, strict_matching_no_missing_tools criteria0
    [(cand0, mentions1), (cand0, mentions0)] rfl⟩

/-- C4: successful campaign transitions are exactly the specified edges
(draft to running, running to paused, paused to running, running to completed
or failed); after `create`, the sequence start-pause-start ends running with
no error, and start-pause-pause leaves the state paused with an
`InvalidStateError`. -/
theorem campaign_lifecycle_transitions :
    (∀ s s2, (startTransition s = .ok s2 ∨ pauseTransition s = .ok s2 ∨
        completeTransition s = .ok s2 ∨ failTransition s = .ok s2) →
      allowedTransition s s2 = true) ∧
    (∀ r d, createCampaign r = .ok d →
      (applyTransition startTransition
          (applyTransition pauseTransition
            (applyTransition startTransition d).1).1).1 = .running ∧
      (applyTransition startTransition
          (applyTransition pauseTransition
            (applyTransition startTransition d).1).1).2 = none) ∧
    (∀ r d, createCampaign r = .ok d →
      (applyTransition pauseTransition
          (applyTransition pauseTransition
            (applyTransition startTransition d).1).1).1 = .paused ∧
      (applyTransition pauseTransition
          (applyTransition pauseTransition
            (applyTransition startTransition d).1).1).2 = some .invalidState) := by
  refine ⟨?_, ?_, ?_⟩
  · intro s s2 h
    rcases h with h | h | h | h <;>
      cases s <;> cases s2 <;>
        simp_all [startTransition, pauseTransition, completeTransition,
          failTransition, allowedTransition]
  · intro r d h
    unfold createCampaign at h
    split at h
    · injection h with h2
      subst h2
      exact ⟨rfl, rfl⟩
    · cases h
  · intro r d h
    unfold createCampaign at h
    split at h
    · injection h with h2
      subst h2
      exact ⟨rfl, rfl⟩
    · cases h

/-- Witness for C4 at the draft-to-running edge and a concrete valid
request. -/
theorem campaign_lifecycle_transitions_witness :
    allowedTransition .draft .running = true ∧
    createCampaign request0 = .ok .draft ∧
    ((applyTransition startTransition
        (applyTransition pauseTransition
          (applyTransition startTransition .draft).1).1).1 = .running ∧
      (applyTransition startTransition
        (applyTransition pauseTransition
          (applyTransition startTransition .draft).1).1).2 = none) ∧
    ((applyTransition pauseTransition
        (applyTransition pauseTransition
          (applyTransition startTransition .draft).1).1).1 = .paused ∧
      (applyTransition pauseTransition
        (applyTransition pauseTransition
          (applyTransition startTransition .draft).1).1).2 = some .invalidState) :=
  ⟨campaign_lifecycle_transitions.1 .draft .running (Or.inl rfl), rfl,
    campaign_lifecycle_transitions.2.1 request0 .draft rfl,
    campaign_lifecycle_transitions.2.2 request0 .draft rfl⟩

end AgentsDemo
